import Mathlib

/-!
Verification of the Gamified-Engine backend core against its specification.

Two components are embedded from the source:
  * the model-recommendation search chain
    (`backend/app/services/rag_service.py`, `RAGService.search_models` /
    `RAGService.keyword_search`), and
  * the program step-progression controller
    (`backend/app/routers/programs.py`: the `complete_*_step` handlers,
    `update_program`, `create_problem_statement`, `update_problem_statement`
    and the sibling-entity CRUD the gates read).

Machine-external collaborators (the pgvector distance operator, the embedding
provider) are passed in as parameters; database state is explicit.
-/

namespace GamifiedEngine

/-! ## Data model: the proven-model catalog (`app/models/ProvenModel`)

`embedding` is the nullable pgvector column (`Vector(1536)`); entries are
modelled as integers. `id` stands for the UUID primary key. -/

structure ProvenModel where
  id : Nat
  name : String
  description : String
  themes : List String
  target_outcomes : List String
  embedding : Option (List Int)
deriving DecidableEq

/-! ## String helpers for SQL `ILIKE`

`name ILIKE '%' || lower(query) || '%'` on Postgres is, for a wildcard-free
query, exactly: the lowercased query occurs as a substring of the lowercased
field. -/

def prefixOfB : List Char → List Char → Bool
  | [], _ => true
  | _ :: _, [] => false
  | a :: as, b :: bs => a == b && prefixOfB as bs

def substrB (needle : List Char) : List Char → Bool
  | [] => prefixOfB needle []
  | c :: cs => prefixOfB needle (c :: cs) || substrB needle cs

/-- The characters of a string, lowercased (`lower(s)` / Python
`s.lower()`, restricted to the ASCII case folding `Char.toLower`
implements). -/
def lowerData (s : String) : List Char := s.data.map Char.toLower

/-- Case-insensitive substring containment: `needle` occurs inside
`haystack` ignoring case (the semantics of `haystack ILIKE '%needle%'`
for a wildcard-free needle). -/
def containsCI (haystack needle : String) : Bool :=
  substrB (lowerData needle) (lowerData haystack)

/-- The Python f-string `f"%..."` pattern value
`"%" + query.lower() + "%"` that `keyword_search` binds as a parameter. -/
def percentPattern (query : String) : String :=
  ⟨'%' :: lowerData query ++ ['%']⟩

/-- Theme filter used by both search paths:
`theme_filter = ANY(themes)` (SQLAlchemy `ProvenModel.themes.any(theme_filter)`),
i.e. the model's theme-tag list contains the requested theme exactly. -/
def themeOk (theme_filter : Option String) (m : ProvenModel) : Bool :=
  match theme_filter with
  | none => true
  | some t => m.themes.contains t

/-! ## `RAGService.keyword_search` (rag_service.py lines 62-84)

Source:
```
query_lower = f"%\x7bquery.lower()\x7d%"
stmt = select(ProvenModel).where(
    (ProvenModel.name.ilike(query_lower)) |
    (ProvenModel.description.ilike(query_lower)) |
    (ProvenModel.target_outcomes.any(query_lower)))
if theme_filter: stmt = stmt.where(ProvenModel.themes.any(theme_filter))
stmt = stmt.limit(limit)
```
Note the third disjunct: SQLAlchemy `ARRAY.any(value)` compiles to
`value = ANY(target_outcomes)` — an exact string equality against the
percent-wrapped pattern, NOT an ILIKE substring match. -/

def keywordRowMatch (query : String) (m : ProvenModel) : Bool :=
  containsCI m.name query || containsCI m.description query
    || m.target_outcomes.contains (percentPattern query)

/-- The keyword fallback: filter the catalog by the row predicate and the
theme filter, then `LIMIT limit`. A plain `SELECT` has no `ORDER BY`;
the catalog's storage order is kept. -/
def keyword_search (catalog : List ProvenModel) (query : String)
    (limit : Nat) (theme_filter : Option String) : List ProvenModel :=
  (((catalog.filter (keywordRowMatch query)).filter (themeOk theme_filter))).take limit

/-! ## `RAGService.search_models` (rag_service.py lines 15-60)

The embedding provider (`ai_service.get_embedding`) may raise; its outcome is
passed in as `embedResult : Option (List Int)` (`none` = the call failed or
raised for any reason). The pgvector `<=>` operator is the external parameter
`dist`. The SQL is

```
SELECT *, embedding <=> :embedding AS distance FROM proven_models
WHERE embedding IS NOT NULL [AND :theme = ANY(themes)]
ORDER BY distance LIMIT :limit
```

followed by a re-fetch of each returned row by primary key
(`db.get(ProvenModel, row.id)`), dropping ids that are no longer present.
Any exception anywhere in the `try` block falls through to
`keyword_search`. -/

def embVec (m : ProvenModel) : List Int := m.embedding.getD []

def semanticRowOk (theme_filter : Option String) (m : ProvenModel) : Bool :=
  m.embedding.isSome && themeOk theme_filter m

def distLE (dist : List Int → List Int → Int) (q : List Int) (a b : ProvenModel) : Prop :=
  dist q (embVec a) ≤ dist q (embVec b)

instance (dist : List Int → List Int → Int) (q : List Int) :
    DecidableRel (distLE dist q) :=
  fun _ _ => inferInstanceAs (Decidable (_ ≤ _))

/-- Rows of the vector-similarity query, in result order. -/
def semanticRows (dist : List Int → List Int → Int) (catalog : List ProvenModel)
    (qe : List Int) (limit : Nat) (theme_filter : Option String) : List ProvenModel :=
  ((catalog.filter (semanticRowOk theme_filter)).insertionSort (distLE dist qe)).take limit

def search_models (dist : List Int → List Int → Int) (catalog : List ProvenModel)
    (embedResult : Option (List Int)) (query : String) (limit : Nat)
    (theme_filter : Option String) : List ProvenModel :=
  match embedResult with
  | some qe =>
    (semanticRows dist catalog qe limit theme_filter).filterMap
      (fun row => catalog.find? (fun m => m.id == row.id))
  | none => keyword_search catalog query limit theme_filter

/-! ## Data model: a program and its step-gating entities (`app/models`)

`Db` is the slice of the persistent store belonging to one program id:
the program row (if it exists), and the dependent rows keyed by that
program id. `id` fields stand for UUID primary keys. -/

structure Program where
  title : String
  description : Option String
  status : String
  current_step : Nat
deriving DecidableEq

structure ProblemStatement where
  challenge_text : String
  refined_text : Option String
  root_causes : List String
  theme : Option String
  is_completed : Bool
deriving DecidableEq

structure Stakeholder where
  name : String
  role : String
  engagement_strategy : Option String
  priority : String
  is_ai_suggested : Bool
deriving DecidableEq

structure Outcome where
  id : Nat
  description : String
  theme : Option String
  timeframe : Option String
deriving DecidableEq

structure Indicator where
  outcome_id : Nat
  type : String
  description : String
deriving DecidableEq

structure Db where
  program : Option Program
  problem_statements : List ProblemStatement
  stakeholders : List Stakeholder
  program_models : List Nat
  outcomes : List Outcome
  indicators : List Indicator
deriving DecidableEq

/-- The `HTTPException` outcomes of the handlers, plus the
`MultipleResultsFound` error `scalar_one_or_none()` raises on a
duplicated one-to-one row. -/
inductive ApiError where
  | notFound : String → ApiError
  | badRequest : String → ApiError
  | multipleResults : ApiError
deriving DecidableEq

/-! ## Request schemas (`app/schemas`) -/

/-- Schema `ProgramUpdate`: every field optional (`exclude_unset` PATCH semantics). -/
structure ProgramUpdate where
  title : Option String
  description : Option String
  status : Option String
  current_step : Option Nat
deriving DecidableEq

/-- Pydantic validation on `ProgramUpdate.current_step`:
`Field(None, ge=1, le=5)`. -/
def ProgramUpdate.validB (d : ProgramUpdate) : Bool :=
  match d.current_step with
  | none => true
  | some v => decide (1 ≤ v) && decide (v ≤ 5)

structure ProblemStatementCreate where
  challenge_text : String
  theme : Option String
deriving DecidableEq

structure ProblemStatementUpdate where
  challenge_text : Option String
  refined_text : Option String
  root_causes : Option (List String)
  theme : Option String
  is_completed : Option Bool
deriving DecidableEq

/-! ## Handlers of `app/routers/programs.py`

Each handler is a function `Db → ... → Except ApiError (Db × response)`.
An `HTTPException` in the source is raised before any mutation, so the
`error` outcome carries no state: the store is unchanged. -/

/-- Handler `PATCH /api/programs/id` (lines 109-126): apply every set field of
the patch to the program row. A field set in the patch overwrites; an
unset field keeps the stored value. -/
def applyProgramUpdate (p : Program) (d : ProgramUpdate) : Program :=
  { title := d.title.getD p.title
    description := match d.description with | none => p.description | some s => some s
    status := d.status.getD p.status
    current_step := d.current_step.getD p.current_step }

def update_program (db : Db) (d : ProgramUpdate) : Except ApiError (Db × Program) :=
  match db.program with
  | none => .error (.notFound "Program not found")
  | some p =>
    let p1 := applyProgramUpdate p d
    .ok ({ db with program := some p1 }, p1)

/-- Handler `DELETE /api/programs/id` (lines 129-136); the FK `ondelete="CASCADE"`
clauses remove every dependent row. -/
def delete_program (db : Db) : Except ApiError (Db × Unit) :=
  match db.program with
  | none => .error (.notFound "Program not found")
  | some _ =>
    .ok ({ program := none, problem_statements := [], stakeholders := [],
           program_models := [], outcomes := [], indicators := [] }, ())

/-- Handler `POST /api/programs/id/problem` (lines 185-207): 404 when the program
is missing, 400 when a problem statement already exists
(`scalar_one_or_none()` over the program's rows: truthy row → 400,
more than one row → MultipleResultsFound). -/
def create_problem_statement (db : Db) (d : ProblemStatementCreate) :
    Except ApiError (Db × ProblemStatement) :=
  match db.program with
  | none => .error (.notFound "Program not found")
  | some _ =>
    match db.problem_statements with
    | [] =>
      let ps : ProblemStatement :=
        { challenge_text := d.challenge_text, refined_text := none,
          root_causes := [], theme := d.theme, is_completed := false }
      .ok ({ db with problem_statements := db.problem_statements ++ [ps] }, ps)
    | [_] => .error (.badRequest "Problem statement already exists for this program")
    | _ :: _ :: _ => .error .multipleResults

def applyProblemStatementUpdate (ps : ProblemStatement)
    (d : ProblemStatementUpdate) : ProblemStatement :=
  { challenge_text := d.challenge_text.getD ps.challenge_text
    refined_text := match d.refined_text with | none => ps.refined_text | some s => some s
    root_causes := d.root_causes.getD ps.root_causes
    theme := match d.theme with | none => ps.theme | some s => some s
    is_completed := d.is_completed.getD ps.is_completed }

/-- Handler `PATCH /api/programs/id/problem` (lines 221-247): update the row;
then `if data.is_completed and problem.is_completed:` fetch the program
and, when it exists at `current_step == 1`, set `current_step = 2` and
`status = "in_progress"`. -/
def update_problem_statement (db : Db) (d : ProblemStatementUpdate) :
    Except ApiError (Db × ProblemStatement) :=
  match db.problem_statements with
  | [] => .error (.notFound "Problem statement not found")
  | [ps] =>
    let ps1 := applyProblemStatementUpdate ps d
    let db1 : Db := { db with problem_statements := [ps1] }
    if d.is_completed.getD false && ps1.is_completed then
      match db1.program with
      | some p =>
        if p.current_step == 1 then
          .ok ({ db1 with
                 program := some { p with current_step := 2, status := "in_progress" } }, ps1)
        else .ok (db1, ps1)
      | none => .ok (db1, ps1)
    else .ok (db1, ps1)
  | _ :: _ :: _ => .error .multipleResults

/-- Handler `POST /api/programs/id/stakeholders` (lines 254-269). -/
def add_stakeholder (db : Db) (s : Stakeholder) : Except ApiError (Db × Stakeholder) :=
  match db.program with
  | none => .error (.notFound "Program not found")
  | some _ => .ok ({ db with stakeholders := db.stakeholders ++ [s] }, s)

/-- Handler `POST /api/programs/id/stakeholders/complete` (lines 310-328):
404 when the program is missing; 400 when no stakeholder row exists
(checked before the step test); then advance 2 → 3 only when
`current_step == 2`, else return the program unchanged. -/
def complete_stakeholder_step (db : Db) : Except ApiError (Db × Program) :=
  match db.program with
  | none => .error (.notFound "Program not found")
  | some p =>
    if db.stakeholders.isEmpty then
      .error (.badRequest "Add at least one stakeholder before completing this step")
    else
      let p1 := if p.current_step == 2 then { p with current_step := 3 } else p
      .ok ({ db with program := some p1 }, p1)

/-- Handler `POST /api/programs/id/models` (lines 332-362): 404 when the program
or the catalog model is missing; else insert the join row. -/
def add_proven_model_to_program (catalog : List ProvenModel) (db : Db)
    (proven_model_id : Nat) : Except ApiError (Db × Nat) :=
  match db.program with
  | none => .error (.notFound "Program not found")
  | some _ =>
    if (catalog.find? (fun m => m.id == proven_model_id)).isSome then
      .ok ({ db with program_models := db.program_models ++ [proven_model_id] },
           proven_model_id)
    else .error (.notFound "Proven model not found")

/-- Handler `POST /api/programs/id/models/complete` (lines 365-377): no gating
condition at all; advance 3 → 4 only when `current_step == 3`. -/
def complete_models_step (db : Db) : Except ApiError (Db × Program) :=
  match db.program with
  | none => .error (.notFound "Program not found")
  | some p =>
    let p1 := if p.current_step == 3 then { p with current_step := 4 } else p
    .ok ({ db with program := some p1 }, p1)

/-- Handler `POST /api/programs/id/outcomes` (lines 384-399). -/
def create_outcome (db : Db) (o : Outcome) : Except ApiError (Db × Outcome) :=
  match db.program with
  | none => .error (.notFound "Program not found")
  | some _ => .ok ({ db with outcomes := db.outcomes ++ [o] }, o)

/-- Handler `POST /api/outcomes/outcome_id/indicators` (lines 410-425). -/
def create_indicator (db : Db) (ind : Indicator) : Except ApiError (Db × Indicator) :=
  if db.outcomes.any (fun o => o.id == ind.outcome_id) then
    .ok ({ db with indicators := db.indicators ++ [ind] }, ind)
  else .error (.notFound "Outcome not found")

/-- Handler `POST /api/programs/id/indicators/complete` (lines 436-456): 404 when
the program is missing; 400 when the program has no outcome (indicator
rows are never consulted); advance 4 → 5 only when `current_step == 4`. -/
def complete_indicators_step (db : Db) : Except ApiError (Db × Program) :=
  match db.program with
  | none => .error (.notFound "Program not found")
  | some p =>
    if db.outcomes.isEmpty then
      .error (.badRequest "Add at least one outcome before completing this step")
    else
      let p1 := if p.current_step == 4 then { p with current_step := 5 } else p
      .ok ({ db with program := some p1 }, p1)

/-! ## Operations as a transition system

`applyOp` runs one handler and keeps the resulting store; an error outcome
leaves the store as it was (in the source every `HTTPException` is raised
before any mutation/commit). -/

inductive Op where
  | updateProgram : ProgramUpdate → Op
  | deleteProgram : Op
  | createProblemStatement : ProblemStatementCreate → Op
  | updateProblemStatement : ProblemStatementUpdate → Op
  | addStakeholder : Stakeholder → Op
  | completeStakeholderStep : Op
  | addProvenModel : List ProvenModel → Nat → Op
  | completeModelsStep : Op
  | createOutcome : Outcome → Op
  | createIndicator : Indicator → Op
  | completeIndicatorsStep : Op

def opResultDb {α : Type} (db : Db) : Except ApiError (Db × α) → Db
  | .ok (db1, _) => db1
  | .error _ => db

def applyOp (db : Db) : Op → Db
  | .updateProgram d => opResultDb db (update_program db d)
  | .deleteProgram => opResultDb db (delete_program db)
  | .createProblemStatement d => opResultDb db (create_problem_statement db d)
  | .updateProblemStatement d => opResultDb db (update_problem_statement db d)
  | .addStakeholder s => opResultDb db (add_stakeholder db s)
  | .completeStakeholderStep => opResultDb db (complete_stakeholder_step db)
  | .addProvenModel catalog i => opResultDb db (add_proven_model_to_program catalog db i)
  | .completeModelsStep => opResultDb db (complete_models_step db)
  | .createOutcome o => opResultDb db (create_outcome db o)
  | .createIndicator i => opResultDb db (create_indicator db i)
  | .completeIndicatorsStep => opResultDb db (complete_indicators_step db)

/-- The step-completion operations: the four transitions that implement
`complete_step` for steps 1 (via the problem-statement completion flag),
2, 3 and 4. -/
def Op.isStepCompletion : Op → Bool
  | .updateProblemStatement _ => true
  | .completeStakeholderStep => true
  | .completeModelsStep => true
  | .completeIndicatorsStep => true
  | _ => false

/-- The program's `current_step` as stored (0 when no program row exists). -/
def stepOf (db : Db) : Nat :=
  match db.program with
  | some p => p.current_step
  | none => 0

/-- Whether a handler outcome is a success (HTTP 2xx) rather than a raised
`HTTPException`. -/
def isSuccess {α : Type} : Except ApiError (Db × α) → Bool
  | .ok _ => true
  | .error _ => false

/-- The keyword-fallback row criterion as the spec words it (§4.2 step 3):
name, description, or one of the target-outcome tags contains the query as
a case-insensitive substring. Stated for comparison with the source-derived
`keywordRowMatch`. -/
def keywordRowMatchSpec (query : String) (m : ProvenModel) : Bool :=
  containsCI m.name query || containsCI m.description query
    || m.target_outcomes.any (fun t => containsCI t query)

/-! ## Concrete fixtures used by counterexamples and witnesses -/

def prog1 : Program :=
  { title := "P", description := none, status := "draft", current_step := 1 }

def prog2 : Program :=
  { title := "P", description := none, status := "in_progress", current_step := 2 }

def prog3 : Program :=
  { title := "P", description := none, status := "in_progress", current_step := 3 }

def prog4 : Program :=
  { title := "P", description := none, status := "in_progress", current_step := 4 }

def prog5 : Program :=
  { title := "P", description := none, status := "in_progress", current_step := 5 }

def stakeholderA : Stakeholder :=
  { name := "Head teacher", role := "school", engagement_strategy := none,
    priority := "high", is_ai_suggested := false }

def outcomeA : Outcome :=
  { id := 1, description := "reading fluency improves", theme := none, timeframe := none }

def psA : ProblemStatement :=
  { challenge_text := "children cannot read at grade level", refined_text := none,
    root_causes := [], theme := some "FLN", is_completed := false }

def emptyDeps : Db :=
  { program := none, problem_statements := [], stakeholders := [],
    program_models := [], outcomes := [], indicators := [] }

/-- A program at step 1 (draft) with no dependent rows. -/
def db1 : Db := { emptyDeps with program := some prog1 }

/-- A program at step 1 (draft) with its problem statement row. -/
def db1ps : Db :=
  { emptyDeps with
    program := some prog1
    problem_statements := [psA] }

/-- A program at step 2 with one stakeholder. -/
def db2s : Db :=
  { emptyDeps with
    program := some prog2
    stakeholders := [stakeholderA] }

/-- A program at step 3 with no model selections. -/
def db3 : Db := { emptyDeps with program := some prog3 }

/-- A program at step 4 with one outcome carrying zero indicators. -/
def db4o : Db :=
  { emptyDeps with
    program := some prog4
    outcomes := [outcomeA] }

/-- A program at step 5 with one stakeholder and one outcome. -/
def db5 : Db :=
  { emptyDeps with
    program := some prog5
    stakeholders := [stakeholderA]
    outcomes := [outcomeA] }

/-- The PATCH body `{"current_step": 1}` — valid under the
`Field(None, ge=1, le=5)` schema. -/
def patchStep1 : ProgramUpdate :=
  { title := none, description := none, status := none, current_step := some 1 }

/-- The PATCH body `{"is_completed": true}` that completes step 1. -/
def markCompleted : ProblemStatementUpdate :=
  { challenge_text := none, refined_text := none, root_causes := none,
    theme := none, is_completed := some true }

/-- A catalog model whose only relation to the query "reading" is the
target-outcome tag "reading". -/
def tagModel : ProvenModel :=
  { id := 1, name := "Peer Tutoring", description := "structured peer sessions",
    themes := ["FLN"], target_outcomes := ["reading"], embedding := none }

/-- A catalog model carrying the literal pattern string "%reading%" as a
target-outcome tag. -/
def tagModelPat : ProvenModel :=
  { id := 2, name := "Peer Tutoring", description := "structured peer sessions",
    themes := ["FLN"], target_outcomes := ["%reading%"], embedding := none }

/-- Two-model catalog with stored embeddings, for the semantic-path witness. -/
def modelE1 : ProvenModel :=
  { id := 11, name := "Phonics Blocks", description := "phonics drills",
    themes := ["FLN"], target_outcomes := ["reading"], embedding := some [1] }

def modelE2 : ProvenModel :=
  { id := 12, name := "Reading Circles", description := "group reading",
    themes := ["FLN"], target_outcomes := ["reading"], embedding := some [3] }

def catalogW : List ProvenModel := [modelE2, modelE1]

/-- A sample distance: absolute difference of the vector heads. -/
def distW (a b : List Int) : Int := |a.headD 0 - b.headD 0|

/-- Invariant: a program owns at most one problem statement row
(`program_id` is `unique` on `problem_statements`). -/
def psInvariant (db : Db) : Prop := db.problem_statements.length ≤ 1

/-- A problem-statement creation request body. -/
def psCreateA : ProblemStatementCreate :=
  { challenge_text := "children cannot read at grade level", theme := some "FLN" }

/-! # Helper lemmas -/

instance (dist : List Int → List Int → Int) (q : List Int) :
    IsTotal ProvenModel (distLE dist q) :=
  ⟨fun a b => le_total (dist q (embVec a)) (dist q (embVec b))⟩

instance (dist : List Int → List Int → Int) (q : List Int) :
    IsTrans ProvenModel (distLE dist q) :=
  ⟨fun _ _ _ hab hbc => le_trans hab hbc⟩

/-- In a catalog with distinct primary keys, the re-fetch by id
(`db.get(ProvenModel, row.id)`) returns the row itself. -/
theorem find_id_of_nodup (catalog : List ProvenModel)
    (hids : (catalog.map ProvenModel.id).Nodup) :
    ∀ m ∈ catalog, catalog.find? (fun x => x.id == m.id) = some m := by
  induction catalog with
  | nil => intro m hm; cases hm
  | cons a l ih =>
    intro m hm
    rcases List.mem_cons.1 hm with rfl | hm'
    · simp
    · have hane : ¬ (a.id == m.id) = true := by
        simp only [beq_iff_eq]
        intro he
        have hmem : m.id ∈ l.map ProvenModel.id := List.mem_map_of_mem _ hm'
        rw [← he] at hmem
        exact (List.nodup_cons.1 hids).1 hmem
      rw [@List.find?_cons_of_neg _ (fun x => x.id == m.id) _ l hane]
      exact ih (List.nodup_cons.1 hids).2 m hm'

theorem filterMap_find_self (catalog : List ProvenModel)
    (hids : (catalog.map ProvenModel.id).Nodup) (l : List ProvenModel)
    (hl : ∀ m ∈ l, m ∈ catalog) :
    l.filterMap (fun row => catalog.find? (fun m => m.id == row.id)) = l := by
  induction l with
  | nil => rfl
  | cons a t ih =>
    rw [List.filterMap_cons,
      find_id_of_nodup catalog hids a (hl a (List.mem_cons_self a t)),
      ih (fun m hm => hl m (List.mem_cons_of_mem a hm))]

theorem semanticRows_subset (dist : List Int → List Int → Int)
    (catalog : List ProvenModel) (qe : List Int) (limit : Nat)
    (theme_filter : Option String) :
    ∀ m ∈ semanticRows dist catalog qe limit theme_filter, m ∈ catalog := by
  intro m hm
  have h1 : m ∈ (catalog.filter (semanticRowOk theme_filter)).insertionSort
      (distLE dist qe) := List.mem_of_mem_take hm
  exact List.mem_of_mem_filter ((List.mem_insertionSort _).1 h1)

theorem search_models_semantic_eq (dist : List Int → List Int → Int)
    (catalog : List ProvenModel) (qe : List Int) (query : String) (limit : Nat)
    (theme_filter : Option String)
    (hids : (catalog.map ProvenModel.id).Nodup) :
    search_models dist catalog (some qe) query limit theme_filter =
      semanticRows dist catalog qe limit theme_filter :=
  filterMap_find_self catalog hids _
    (semanticRows_subset dist catalog qe limit theme_filter)

/-! # Claims -/

/-- Claim C4: with a failed embedding call (`embedResult = none`) the
search runs the keyword fallback and returns exactly its results — the
function is total, so no error escapes the component — and for every
outcome of the embedding call the result holds at most `limit` models. -/
theorem claim_C4 (dist : List Int → List Int → Int) (catalog : List ProvenModel)
    (query : String) (limit : Nat) (theme_filter : Option String) :
    search_models dist catalog none query limit theme_filter =
      keyword_search catalog query limit theme_filter ∧
    ∀ embedResult : Option (List Int),
      (search_models dist catalog embedResult query limit theme_filter).length ≤ limit := by
  refine ⟨rfl, fun embedResult => ?_⟩
  cases embedResult with
  | none =>
    simp only [search_models, keyword_search]
    exact List.length_take_le limit
      ((catalog.filter (keywordRowMatch query)).filter (themeOk theme_filter))
  | some qe =>
    calc (search_models dist catalog (some qe) query limit theme_filter).length
        ≤ (semanticRows dist catalog qe limit theme_filter).length :=
          List.length_filterMap_le _ _
      _ ≤ limit := List.length_take_le _ _

/-- Claim C5 is wrong about the code: the target-outcome disjunct of the
keyword fallback is an exact equality test against the literal pattern
string (SQLAlchemy `ARRAY.any(value)` compiles to `value = ANY(col)`),
not a case-insensitive substring match. A model whose target-outcome tag
"reading" contains the query "reading" satisfies the specified criterion
(`keywordRowMatchSpec`) yet is not returned; a model carrying the literal
tag `%reading%` is returned instead. -/
theorem claim_C5_bug :
    keywordRowMatchSpec "reading" tagModel = true ∧
    keyword_search [tagModel] "reading" 5 none = [] ∧
    keyword_search [tagModelPat] "reading" 5 none = [tagModelPat] := by
  decide

/-- Claim C8: on a successful embedding call the search returns the
catalog models that have a stored embedding, theme-filtered before
ranking, ordered by ascending distance to the query embedding, at most
`limit` of them; every returned model has a stored embedding, passes the
theme filter and comes from the catalog. -/
theorem claim_C8 (dist : List Int → List Int → Int) (catalog : List ProvenModel)
    (qe : List Int) (query : String) (limit : Nat) (theme_filter : Option String)
    (m : ProvenModel)
    (hids : (catalog.map ProvenModel.id).Nodup)
    (hm : m ∈ search_models dist catalog (some qe) query limit theme_filter) :
    search_models dist catalog (some qe) query limit theme_filter =
      ((catalog.filter (semanticRowOk theme_filter)).insertionSort
        (distLE dist qe)).take limit ∧
    List.Sorted (distLE dist qe)
      (search_models dist catalog (some qe) query limit theme_filter) ∧
    (search_models dist catalog (some qe) query limit theme_filter).length ≤ limit ∧
    (m.embedding.isSome = true ∧ themeOk theme_filter m = true ∧ m ∈ catalog) := by
  have heq := search_models_semantic_eq dist catalog qe query limit theme_filter hids
  refine ⟨heq, ?_, ?_, ?_⟩
  · rw [heq]
    exact ((List.sorted_insertionSort (distLE dist qe) _).sublist
      (List.take_sublist _ _))
  · rw [heq]
    exact List.length_take_le _ _
  · rw [heq] at hm
    have h1 : m ∈ (catalog.filter (semanticRowOk theme_filter)).insertionSort
        (distLE dist qe) := List.mem_of_mem_take hm
    have h2 := (List.mem_insertionSort _).1 h1
    have h3 := List.mem_filter.1 h2
    have h4 := h3.2
    simp only [semanticRowOk, Bool.and_eq_true] at h4
    exact ⟨h4.1, h4.2, h3.1⟩

/-- Witness for C8 at a concrete two-model catalog, query embedding `[1]`
and the head-difference distance. -/
theorem claim_C8_witness :
    search_models distW catalogW (some [1]) "reading fluency" 5 none =
      ((catalogW.filter (semanticRowOk none)).insertionSort
        (distLE distW [1])).take 5 ∧
    List.Sorted (distLE distW [1])
      (search_models distW catalogW (some [1]) "reading fluency" 5 none) ∧
    (search_models distW catalogW (some [1]) "reading fluency" 5 none).length ≤ 5 ∧
    (modelE1.embedding.isSome = true ∧ themeOk none modelE1 = true ∧
      modelE1 ∈ catalogW) :=
  claim_C8 distW catalogW [1] "reading fluency" 5 none modelE1
    (by decide) (by decide)

/-- A single step-completion operation never decreases `current_step`, and
changes it by zero or exactly one. -/
theorem stepCompletion_step (db : Db) (op : Op) (h : op.isStepCompletion = true) :
    stepOf db ≤ stepOf (applyOp db op) ∧
      (stepOf (applyOp db op) = stepOf db ∨ stepOf (applyOp db op) = stepOf db + 1) := by
  cases op <;> simp only [Op.isStepCompletion, Bool.false_eq_true] at h
  case updateProblemStatement d =>
    rcases hps : db.problem_statements with _ | ⟨ps, rest⟩
    · simp [applyOp, update_problem_statement, opResultDb, hps]
    · rcases rest with _ | ⟨ps2, rest2⟩
      · rcases hdb : db.program with _ | p
        · by_cases hc :
            (d.is_completed.getD false && (applyProblemStatementUpdate ps d).is_completed) = true <;>
            simp [applyOp, update_problem_statement, opResultDb, hps, hdb, hc, stepOf]
        · by_cases hc :
            (d.is_completed.getD false && (applyProblemStatementUpdate ps d).is_completed) = true
          · by_cases h1 : p.current_step = 1 <;>
              simp [applyOp, update_problem_statement, opResultDb, hps, hdb, hc, h1, stepOf]
          · simp [applyOp, update_problem_statement, opResultDb, hps, hdb, hc, stepOf]
      · simp [applyOp, update_problem_statement, opResultDb, hps]
  case completeStakeholderStep =>
    rcases hdb : db.program with _ | p
    · simp [applyOp, complete_stakeholder_step, opResultDb, hdb]
    · by_cases hs : db.stakeholders.isEmpty
      · simp [applyOp, complete_stakeholder_step, opResultDb, hdb, hs]
      · by_cases h2 : p.current_step = 2 <;>
          simp [applyOp, complete_stakeholder_step, opResultDb, hdb, hs, h2, stepOf]
  case completeModelsStep =>
    rcases hdb : db.program with _ | p
    · simp [applyOp, complete_models_step, opResultDb, hdb]
    · by_cases h3 : p.current_step = 3 <;>
        simp [applyOp, complete_models_step, opResultDb, hdb, h3, stepOf]
  case completeIndicatorsStep =>
    rcases hdb : db.program with _ | p
    · simp [applyOp, complete_indicators_step, opResultDb, hdb]
    · by_cases ho : db.outcomes.isEmpty
      · simp [applyOp, complete_indicators_step, opResultDb, hdb, ho]
      · by_cases h4 : p.current_step = 4 <;>
          simp [applyOp, complete_indicators_step, opResultDb, hdb, ho, h4, stepOf]

/-- Across any sequence of step-completion operations, `current_step` is
monotonically non-decreasing. -/
theorem stepCompletion_foldl (ops : List Op) :
    ∀ db : Db, (∀ op ∈ ops, op.isStepCompletion = true) →
      stepOf db ≤ stepOf (ops.foldl applyOp db) := by
  induction ops with
  | nil => intro db _; simp
  | cons op rest ih =>
    intro db h
    simp only [List.foldl_cons]
    exact le_trans (stepCompletion_step db op (h op (List.mem_cons_self _ _))).1
      (ih _ (fun o ho => h o (List.mem_cons_of_mem _ ho)))

/-- Claim C1 fails as stated: the component also exposes the generic
`update_program` PATCH handler, whose schema accepts any `current_step`
in 1..5. Applying the schema-valid body with `current_step = 1` to a
program at step 3 strictly decreases `current_step`. -/
theorem claim_C1_counterexample :
    patchStep1.validB = true ∧
    stepOf (applyOp db3 (Op.updateProgram patchStep1)) < stepOf db3 := by
  decide

/-- Claim C1 (amended): restricted to the step-completion operations
(the four `complete_step` transitions), `current_step` is monotonically
non-decreasing across any sequence, and a single completion operation
leaves `current_step` unchanged or increases it by exactly one; the
generic `update_program` PATCH, however, may set `current_step` to any
value in 1..5, including lower ones. -/
theorem claim_C1 (db : Db) (ops : List Op) (op : Op)
    (hops : ∀ o ∈ ops, o.isStepCompletion = true)
    (hop : op.isStepCompletion = true) :
    stepOf db ≤ stepOf (ops.foldl applyOp db) ∧
    (stepOf (applyOp db op) = stepOf db ∨ stepOf (applyOp db op) = stepOf db + 1) :=
  ⟨stepCompletion_foldl ops db hops, (stepCompletion_step db op hop).2⟩

/-- Witness for C1 (amended) at a step-2 program with one stakeholder. -/
theorem claim_C1_witness :
    stepOf db2s ≤ stepOf ([Op.completeStakeholderStep].foldl applyOp db2s) ∧
    (stepOf (applyOp db2s Op.completeStakeholderStep) = stepOf db2s ∨
     stepOf (applyOp db2s Op.completeStakeholderStep) = stepOf db2s + 1) :=
  claim_C1 db2s [Op.completeStakeholderStep] Op.completeStakeholderStep
    (by decide) (by decide)

/-- Claim C2 fails as stated: the gate check runs before the
`current_step == n` test, so a stale completion request for step 2 on a
program at step 1 with zero stakeholders raises the gate error instead of
returning the current state without error. -/
theorem claim_C2_counterexample :
    db1.program = some prog1 ∧ prog1.current_step ≠ 2 ∧
    complete_stakeholder_step db1 =
      .error (.badRequest "Add at least one stakeholder before completing this step") :=
  ⟨rfl, by decide, rfl⟩

/-- Claim C2 (amended): when the step-specific gating condition holds and
`current_step ≠ n`, each completion handler is a no-op returning the
current state unchanged with no error; when the gate fails, the handler
raises PreconditionFailed regardless of `current_step`, but still leaves
the state unchanged. -/
theorem claim_C2 (db : Db) (p : Program) (hp : db.program = some p) :
    (db.stakeholders ≠ [] → p.current_step ≠ 2 →
       complete_stakeholder_step db = .ok (db, p)) ∧
    (p.current_step ≠ 3 → complete_models_step db = .ok (db, p)) ∧
    (db.outcomes ≠ [] → p.current_step ≠ 4 →
       complete_indicators_step db = .ok (db, p)) ∧
    (db.stakeholders = [] → applyOp db Op.completeStakeholderStep = db) ∧
    (db.outcomes = [] → applyOp db Op.completeIndicatorsStep = db) := by
  have hdb : { db with program := some p } = db := by rw [← hp]
  refine ⟨fun hs h2 => ?_, fun h3 => ?_, fun ho h4 => ?_, fun hs => ?_, fun ho => ?_⟩
  · have hse : db.stakeholders.isEmpty = false := by
      cases hl : db.stakeholders with
      | nil => exact absurd hl hs
      | cons a t => rfl
    simp [complete_stakeholder_step, hp, hse, h2, hdb]
  · simp [complete_models_step, hp, h3, hdb]
  · have hoe : db.outcomes.isEmpty = false := by
      cases hl : db.outcomes with
      | nil => exact absurd hl ho
      | cons a t => rfl
    simp [complete_indicators_step, hp, hoe, h4, hdb]
  · simp [applyOp, complete_stakeholder_step, opResultDb, hp, hs]
  · simp [applyOp, complete_indicators_step, opResultDb, hp, ho]

/-- Witness for C2 (amended): a step-5 program with one stakeholder and
one outcome (each gate holds, `current_step` matches no handler), and a
step-1 program with no dependents (each gate fails, state kept). -/
theorem claim_C2_witness :
    complete_stakeholder_step db5 = .ok (db5, prog5) ∧
    complete_models_step db5 = .ok (db5, prog5) ∧
    complete_indicators_step db5 = .ok (db5, prog5) ∧
    applyOp db1 Op.completeStakeholderStep = db1 ∧
    applyOp db1 Op.completeIndicatorsStep = db1 :=
  ⟨(claim_C2 db5 prog5 rfl).1 (by decide) (by decide),
   (claim_C2 db5 prog5 rfl).2.1 (by decide),
   (claim_C2 db5 prog5 rfl).2.2.1 (by decide) (by decide),
   (claim_C2 db1 prog1 rfl).2.2.2.1 rfl,
   (claim_C2 db1 prog1 rfl).2.2.2.2 rfl⟩

/-- Claim C3: completing step 2 with zero stakeholders raises the
PreconditionFailed gate error naming the unmet condition and leaves the
state unchanged; after a stakeholder is added, the same call succeeds. -/
theorem claim_C3 (db : Db) (p : Program) (hp : db.program = some p)
    (s : Stakeholder) :
    (db.stakeholders = [] →
       complete_stakeholder_step db =
         .error (.badRequest "Add at least one stakeholder before completing this step") ∧
       applyOp db Op.completeStakeholderStep = db) ∧
    add_stakeholder db s = .ok ({ db with stakeholders := db.stakeholders ++ [s] }, s) ∧
    isSuccess (complete_stakeholder_step
      { db with stakeholders := db.stakeholders ++ [s] }) = true := by
  refine ⟨fun hs => ?_, ?_, ?_⟩
  · constructor
    · simp [complete_stakeholder_step, hp, hs]
    · simp [applyOp, complete_stakeholder_step, opResultDb, hp, hs]
  · simp [add_stakeholder, hp]
  · have hse : (db.stakeholders ++ [s]).isEmpty = false := by
      cases db.stakeholders <;> rfl
    simp [complete_stakeholder_step, hp, hse, isSuccess]

/-- Witness for C3 at a step-1 program with no stakeholders. -/
theorem claim_C3_witness :
    (complete_stakeholder_step db1 =
       .error (.badRequest "Add at least one stakeholder before completing this step") ∧
     applyOp db1 Op.completeStakeholderStep = db1) ∧
    add_stakeholder db1 stakeholderA =
      .ok ({ db1 with stakeholders := db1.stakeholders ++ [stakeholderA] }, stakeholderA) ∧
    isSuccess (complete_stakeholder_step
      { db1 with stakeholders := db1.stakeholders ++ [stakeholderA] }) = true :=
  ⟨(claim_C3 db1 prog1 rfl stakeholderA).1 rfl,
   (claim_C3 db1 prog1 rfl stakeholderA).2.1,
   (claim_C3 db1 prog1 rfl stakeholderA).2.2⟩

/-- Claim C6: on a step-1 draft program with a problem statement row,
the PATCH that sets the completion flag to true succeeds, marks the row
completed, sets `current_step` to exactly 2 and `status` to
"in_progress". -/
theorem claim_C6 (db : Db) (p : Program) (ps : ProblemStatement)
    (hp : db.program = some p) (hps : db.problem_statements = [ps])
    (hstep : p.current_step = 1) (_hstatus : p.status = "draft") :
    update_problem_statement db markCompleted =
      .ok ({ db with
             problem_statements := [{ ps with is_completed := true }]
             program := some { p with status := "in_progress", current_step := 2 } },
           { ps with is_completed := true }) := by
  simp [update_problem_statement, hps, applyProblemStatementUpdate, markCompleted,
    hp, hstep]

/-- Witness for C6 at a step-1 draft program holding the sample problem
statement. -/
theorem claim_C6_witness :
    update_problem_statement db1ps markCompleted =
      .ok ({ db1ps with
             problem_statements := [{ psA with is_completed := true }]
             program := some { prog1 with status := "in_progress", current_step := 2 } },
           { psA with is_completed := true }) :=
  claim_C6 db1ps prog1 psA rfl rfl rfl rfl

/-- Claim C7: the step-3 completion has no gating condition — it succeeds
at step 3 even with zero model selections — and the step-4 completion
requires one outcome but never consults indicator rows: with one outcome
and zero indicators it advances `current_step` to 5. -/
theorem claim_C7 (db : Db) (p : Program) (hp : db.program = some p) :
    (p.current_step = 3 → db.program_models = [] →
       complete_models_step db =
         .ok ({ db with program := some { p with current_step := 4 } },
              { p with current_step := 4 })) ∧
    (∀ o : Outcome, p.current_step = 4 → db.outcomes = [o] → db.indicators = [] →
       complete_indicators_step db =
         .ok ({ db with program := some { p with current_step := 5 } },
              { p with current_step := 5 })) := by
  refine ⟨fun h3 _ => ?_, fun o h4 ho _ => ?_⟩
  · simp [complete_models_step, hp, h3]
  · have hoe : db.outcomes.isEmpty = false := by rw [ho]; rfl
    simp [complete_indicators_step, hp, hoe, h4]

/-- Witness for C7: a step-3 program with zero model selections and a
step-4 program with one outcome and zero indicators. -/
theorem claim_C7_witness :
    complete_models_step db3 =
      .ok ({ db3 with program := some { prog3 with current_step := 4 } },
           { prog3 with current_step := 4 }) ∧
    complete_indicators_step db4o =
      .ok ({ db4o with program := some { prog4 with current_step := 5 } },
           { prog4 with current_step := 5 }) :=
  ⟨(claim_C7 db3 prog3 rfl).1 rfl rfl,
   (claim_C7 db4o prog4 rfl).2 outcomeA rfl rfl rfl⟩

/-- Claim C9: with the gate satisfied, running the same completion
handler twice in succession advances `current_step` by exactly one, not
two — the second call observes the already-advanced step and is a
no-op. -/
theorem claim_C9 (db : Db) (p : Program) (hp : db.program = some p) :
    (db.stakeholders ≠ [] → p.current_step = 2 →
       stepOf (applyOp (applyOp db Op.completeStakeholderStep)
         Op.completeStakeholderStep) = p.current_step + 1) ∧
    (p.current_step = 3 →
       stepOf (applyOp (applyOp db Op.completeModelsStep)
         Op.completeModelsStep) = p.current_step + 1) := by
  refine ⟨fun hs h2 => ?_, fun h3 => ?_⟩
  · have hse : db.stakeholders.isEmpty = false := by
      cases hl : db.stakeholders with
      | nil => exact absurd hl hs
      | cons a t => rfl
    simp [applyOp, complete_stakeholder_step, opResultDb, hp, hse, h2, stepOf]
  · simp [applyOp, complete_models_step, opResultDb, hp, h3, stepOf]

/-- Witness for C9: double completion at a step-2 program with one
stakeholder, and at a step-3 program. -/
theorem claim_C9_witness :
    stepOf (applyOp (applyOp db2s Op.completeStakeholderStep)
      Op.completeStakeholderStep) = prog2.current_step + 1 ∧
    stepOf (applyOp (applyOp db3 Op.completeModelsStep)
      Op.completeModelsStep) = prog3.current_step + 1 :=
  ⟨(claim_C9 db2s prog2 rfl).1 (by decide) rfl,
   (claim_C9 db3 prog3 rfl).2 rfl⟩

set_option maxHeartbeats 1000000 in
/-- Claim C10: every modelled operation preserves the
at-most-one-problem-statement invariant, and creating a problem statement
for a program that already has one fails with the "already exists"
rejection, leaving the state unchanged. -/
theorem claim_C10 (db : Db) (op : Op) (pr : Program) (ps : ProblemStatement)
    (d : ProblemStatementCreate) (hinv : psInvariant db) :
    psInvariant (applyOp db op) ∧
    (db.program = some pr → db.problem_statements = [ps] →
       create_problem_statement db d =
         .error (.badRequest "Problem statement already exists for this program") ∧
       applyOp db (Op.createProblemStatement d) = db) := by
  constructor
  · have key : ∀ (α : Type) (e : Except ApiError (Db × α)),
        (∀ db1 r, e = .ok (db1, r) → db1.problem_statements.length ≤ 1) →
        psInvariant (opResultDb db e) := by
      intro α e h
      cases e with
      | ok pr => exact h pr.1 pr.2 (by cases pr; rfl)
      | error _ => exact hinv
    simp only [applyOp]
    cases op <;>
      refine key _ _ ?_ <;>
      intro db1 r heq <;>
      simp only [update_program, delete_program, create_problem_statement,
        update_problem_statement, add_stakeholder, complete_stakeholder_step,
        add_proven_model_to_program, complete_models_step, create_outcome,
        create_indicator, complete_indicators_step] at heq <;>
      (repeat' split at heq) <;>
      (try simp only [Except.ok.injEq, Prod.mk.injEq, reduceCtorEq] at heq) <;>
      (obtain ⟨h1, h2⟩ := heq
       subst h1
       simp_all [psInvariant])
  · intro hpr hps
    constructor
    · simp [create_problem_statement, hpr, hps]
    · simp [applyOp, create_problem_statement, opResultDb, hpr, hps]

/-- Witness for C10: creating a second problem statement on a program
that already holds one errors and keeps the state. -/
theorem claim_C10_witness :
    psInvariant (applyOp db1ps (Op.createProblemStatement psCreateA)) ∧
    (create_problem_statement db1ps psCreateA =
       .error (.badRequest "Problem statement already exists for this program") ∧
     applyOp db1ps (Op.createProblemStatement psCreateA) = db1ps) := by
  have h := claim_C10 db1ps (Op.createProblemStatement psCreateA) prog1 psA psCreateA
    (by simp [psInvariant, db1ps, emptyDeps])
  exact ⟨h.1, h.2 rfl rfl⟩

end GamifiedEngine
